import Mathlib

/-!
Verification of the perceval GitHub backend fetch/cache subsystem.

The embedding models `src/perceval/backends/core/github.py` and
`src/perceval/client.py`. Python runtime values are modelled by `PyVal`,
Python exceptions by `PyErr`, the cache log by a `List PyVal` of tokens
(marker strings and payloads), and generators by functions that return the
list of yielded values together with an optional terminal error.
`json.loads` is modelled by a small executable JSON parser covering the
fragment used by the backend (null, integers, escape-free strings, arrays,
objects). A `StopIteration` that escapes a generator body is reported as
`runtimeError`, following PEP 479 semantics (Python 3.7+).
-/

/-- Model of a Python runtime value (the fragment the backend manipulates). -/
inductive PyVal where
  | vnull : PyVal
  | vint : Int → PyVal
  | vstr : String → PyVal
  | vlist : List PyVal → PyVal
  | vdict : List (String × PyVal) → PyVal

/-- Model of the Python exceptions the embedded code can raise. -/
inductive PyErr where
  | stopIteration : PyErr
  | typeError : PyErr
  | valueError : PyErr
  | keyError : PyErr
  | nameError : PyErr
  | runtimeError : PyErr
  | indexError : PyErr
  | httpError : Nat → PyErr
  | rateLimited : Int → PyErr
  | fuelExhausted : PyErr
deriving DecidableEq

/-- Lookup in an association list, as Python `d[k]` read / `k in d`. -/
def assocGet {α : Type} : List (String × α) → String → Option α
  | [], _ => none
  | (k, v) :: rest, key => if k = key then some v else assocGet rest key

/-- Python `d[k] = v` on an insertion-ordered dict: replace in place, else append. -/
def assocSet {α : Type} : List (String × α) → String → α → List (String × α)
  | [], k, v => [(k, v)]
  | (k', v') :: rest, k, v =>
    if k' = k then (k, v) :: rest else (k', v') :: assocSet rest k v

/-- Python `dict` update specialised to `PyVal` values. -/
def dictSet (d : List (String × PyVal)) (k : String) (v : PyVal) : List (String × PyVal) :=
  assocSet d k v

/-- Python truthiness (`if not user:`). -/
def isTruthy : PyVal → Bool
  | PyVal.vnull => false
  | PyVal.vint n => n != 0
  | PyVal.vstr s => !s.isEmpty
  | PyVal.vlist xs => !xs.isEmpty
  | PyVal.vdict d => !d.isEmpty

/-- Iterating a Python string yields its characters as one-character strings. -/
def charStrings (s : String) : List PyVal :=
  s.data.map (fun c => PyVal.vstr (String.mk [c]))

/-- Python `for x in v`: strings yield characters, lists their elements,
dicts their keys; other values raise `TypeError`. -/
def pyIterate : PyVal → Except PyErr (List PyVal)
  | PyVal.vstr s => Except.ok (charStrings s)
  | PyVal.vlist xs => Except.ok xs
  | PyVal.vdict d => Except.ok (d.map (fun kv => PyVal.vstr kv.1))
  | _ => Except.error PyErr.typeError

/-- Python `raw_item == marker` where the marker is a string literal. -/
def isMark : PyVal → String → Bool
  | PyVal.vstr t, s => t == s
  | _, _ => false

/-- Python `next(cache_items)`: `StopIteration` when the log is exhausted. -/
def nextTok : List PyVal → Except PyErr (PyVal × List PyVal)
  | [] => Except.error PyErr.stopIteration
  | t :: ts => Except.ok (t, ts)

def jquote : Char := Char.ofNat 34

def jbackslash : Char := Char.ofNat 92

def jlbrace : Char := Char.ofNat 123

def jrbrace : Char := Char.ofNat 125

def isWs (c : Char) : Bool :=
  c == ' ' || c == '\n' || c == '\t' || c == '\r'

def skipWs : List Char → List Char
  | [] => []
  | c :: cs => if isWs c then skipWs cs else c :: cs

/-- Parse the body of a JSON string literal (escape-free fragment). -/
def parseStrChars : List Char → List Char → Option (String × List Char)
  | [], _ => none
  | c :: rest, acc =>
    if c == jquote then some (String.mk acc.reverse, rest)
    else if c == jbackslash then none
    else parseStrChars rest (c :: acc)

def digitsVal (cs : List Char) : Nat :=
  cs.foldl (fun n c => n * 10 + (c.toNat - 48)) 0

/-- Parse a JSON integer token. -/
def parseIntTok (cs : List Char) : Option (PyVal × List Char) :=
  match cs with
  | [] => none
  | c :: rest =>
    if c == '-' then
      match rest.span Char.isDigit with
      | (ds, rest2) =>
        if ds.isEmpty then none
        else some (PyVal.vint (-(Int.ofNat (digitsVal ds))), rest2)
    else
      match cs.span Char.isDigit with
      | (ds, rest2) =>
        if ds.isEmpty then none
        else some (PyVal.vint (Int.ofNat (digitsVal ds)), rest2)

mutual

/-- Parse one JSON value (fuelled recursive-descent parser). -/
def parseVal : Nat → List Char → Option (PyVal × List Char)
  | 0, _ => none
  | Nat.succ fuel, cs =>
    match skipWs cs with
    | [] => none
    | c :: rest =>
      if c == 'n' then
        match rest with
        | 'u' :: 'l' :: 'l' :: rest2 => some (PyVal.vnull, rest2)
        | _ => none
      else if c == jquote then
        match parseStrChars rest [] with
        | some (s, rest2) => some (PyVal.vstr s, rest2)
        | none => none
      else if c == '[' then parseElems fuel rest []
      else if c == jlbrace then parseMembers fuel rest []
      else parseIntTok (c :: rest)

/-- Parse the elements of a JSON array after the opening bracket. -/
def parseElems : Nat → List Char → List PyVal → Option (PyVal × List Char)
  | 0, _, _ => none
  | Nat.succ fuel, cs, acc =>
    match skipWs cs with
    | [] => none
    | c :: rest =>
      if c == ']' then some (PyVal.vlist acc.reverse, rest)
      else
        match parseVal fuel (c :: rest) with
        | none => none
        | some (v, rest2) =>
          match skipWs rest2 with
          | [] => none
          | c2 :: rest3 =>
            if c2 == ',' then parseElems fuel rest3 (v :: acc)
            else if c2 == ']' then some (PyVal.vlist (v :: acc).reverse, rest3)
            else none

/-- Parse the members of a JSON object after the opening brace. -/
def parseMembers : Nat → List Char → List (String × PyVal) →
    Option (PyVal × List Char)
  | 0, _, _ => none
  | Nat.succ fuel, cs, acc =>
    match skipWs cs with
    | [] => none
    | c :: rest =>
      if c == jrbrace then some (PyVal.vdict acc.reverse, rest)
      else if c == jquote then
        match parseStrChars rest [] with
        | none => none
        | some (k, rest2) =>
          match skipWs rest2 with
          | [] => none
          | c2 :: rest3 =>
            if c2 == ':' then
              match parseVal fuel rest3 with
              | none => none
              | some (v, rest4) =>
                match skipWs rest4 with
                | [] => none
                | c3 :: rest5 =>
                  if c3 == ',' then parseMembers fuel rest5 ((k, v) :: acc)
                  else if c3 == jrbrace then
                    some (PyVal.vdict ((k, v) :: acc).reverse, rest5)
                  else none
            else none
      else none

end

/-- Model of `json.loads` on a string: parse one value, require only
whitespace afterwards; failure raises `JSONDecodeError` (a `ValueError`). -/
def json_loads_str (s : String) : Option PyVal :=
  match parseVal (s.length + 2) s.data with
  | some (v, rest) => if (skipWs rest).isEmpty then some v else none
  | none => none

/-- Python `json.loads(x)`: requires a string argument (`TypeError` otherwise),
and raises a `ValueError` on malformed text. -/
def json_loads_py (v : PyVal) : Except PyErr PyVal :=
  match v with
  | PyVal.vstr s =>
    match json_loads_str s with
    | some r => Except.ok r
    | none => Except.error PyErr.valueError
  | _ => Except.error PyErr.typeError

/-- Constant `MAX_RATE_LIMIT` from `client.py` (`RateLimitHandler.MAX_RATE_LIMIT`). -/
def MAX_RATE_LIMIT : Int := 500

/-- Constant `MIN_RATE_LIMIT` from `client.py` (`RateLimitHandler.MIN_RATE_LIMIT`). -/
def MIN_RATE_LIMIT : Int := 10

/-- State of `RateLimitHandler`: `rate_limit` and `rate_limit_reset_ts` are
`None` until a response carrying the corresponding header is seen. -/
structure RLState where
  rate_limit : Option Int
  rate_limit_reset_ts : Option Int
  sleep_for_rate : Bool
  min_rate_to_sleep : Int

/-- Outcome of `RateLimitHandler.sleep_for_rate_limit`: a normal return
(recording how many seconds were slept, 0 for none), a raised
`RateLimitError` carrying `seconds_to_reset`, the `TypeError` from
`None - int`, or the `ValueError` that `time.sleep` raises on a negative
argument. -/
inductive RLOutcome where
  | ok : Int → RLOutcome
  | rateLimited : Int → RLOutcome
  | typeErr : RLOutcome
  | valueErr : RLOutcome
deriving DecidableEq

/-- `RateLimitHandler.setup_rate_limit_handler` (client.py lines 170-193):
both rate fields start as `None`; `min_rate_to_sleep` is clamped to
`MAX_RATE_LIMIT` when it exceeds that bound. -/
def setup_rate_limit_handler (sleep_for_rate : Bool) (min_rate_to_sleep : Int) : RLState :=
  { rate_limit := none
    rate_limit_reset_ts := none
    sleep_for_rate := sleep_for_rate
    min_rate_to_sleep :=
      if min_rate_to_sleep > MAX_RATE_LIMIT then MAX_RATE_LIMIT else min_rate_to_sleep }

/-- `RateLimitHandler.sleep_for_rate_limit` (client.py lines 195-206).
`seconds_to_reset = self.rate_limit_reset_ts - int(time.time()) + 1` is
computed before branching on `sleep_for_rate`; when `rate_limit_reset_ts`
is `None` that subtraction raises `TypeError`, and `time.sleep` of a
negative amount raises `ValueError`. No clamping is performed. -/
def sleep_for_rate_limit (st : RLState) (now : Int) : RLOutcome :=
  match st.rate_limit with
  | none => RLOutcome.ok 0
  | some r =>
    if r ≤ st.min_rate_to_sleep then
      match st.rate_limit_reset_ts with
      | none => RLOutcome.typeErr
      | some reset =>
        let s := reset - now + 1
        if st.sleep_for_rate then
          if s < 0 then RLOutcome.valueErr else RLOutcome.ok s
        else RLOutcome.rateLimited s
    else RLOutcome.ok 0

/-- An HTTP response: status, body text, pagination links and the two
rate-limit headers (`none` when the header is absent). -/
structure Resp where
  status : Nat
  text : String
  nextUrl : Option String
  lastUrl : Option String
  remaining : Option Int
  reset : Option Int

/-- `RateLimitHandler.update_rate_limit` (client.py lines 208-224): each
field is set from its header, or reset to `None` when the header is absent. -/
def update_rate_limit (st : RLState) (r : Resp) : RLState :=
  { st with rate_limit := r.remaining, rate_limit_reset_ts := r.reset }

/-- `HttpClient.fetch` (client.py lines 105-124): issue the request and
`raise_for_status`, i.e. raise `HTTPError` on any 4xx/5xx status. -/
def http_fetch (net : String → Resp) (url : String) : Except PyErr Resp :=
  let r := net url
  if 400 ≤ r.status then Except.error (PyErr.httpError r.status) else Except.ok r

/-- `GitHubClient.fetch` (github.py lines 607-612): wait on the rate
limiter, perform the HTTP fetch, then update the rate state from the
response headers. -/
def gh_fetch (st : RLState) (net : String → Resp) (now : Int) (url : String) :
    Except PyErr (Resp × RLState) :=
  match sleep_for_rate_limit st now with
  | RLOutcome.ok _ =>
    match http_fetch net url with
    | Except.ok r => Except.ok (r, update_rate_limit st r)
    | Except.error e => Except.error e
  | RLOutcome.rateLimited s => Except.error (PyErr.rateLimited s)
  | RLOutcome.typeErr => Except.error PyErr.typeError
  | RLOutcome.valueErr => Except.error PyErr.valueError

def GITHUB_API_URL : String := "https://api.github.com"

/-- URL of the user-organizations lookup, `urijoin(base_url, 'users', login, 'orgs')`. -/
def orgsUrl (login : String) : String :=
  GITHUB_API_URL ++ "/users/" ++ login ++ "/orgs"

/-- URL of the primary issues listing, `urijoin(base_url, 'repos', owner, repository, 'issues')`. -/
def issuesUrl (owner repository : String) : String :=
  GITHUB_API_URL ++ "/repos/" ++ owner ++ "/" ++ repository ++ "/issues"

/-- `GitHubClient.user_orgs` (github.py lines 585-605): consult the
`_users_orgs` cache; otherwise fetch, downgrading only an `HTTPError`
with status 404 to the literal result `"[]"`, re-raising every other
error, and memoise the result. -/
def user_orgs (st : RLState) (users_orgs : List (String × String)) (net : String → Resp)
    (now : Int) (login : String) : Except PyErr (String × List (String × String)) :=
  match assocGet users_orgs login with
  | some orgs => Except.ok (orgs, users_orgs)
  | none =>
    match gh_fetch st net now (orgsUrl login) with
    | Except.ok (r, _) => Except.ok (r.text, assocSet users_orgs login r.text)
    | Except.error e =>
      match e with
      | PyErr.httpError code =>
        if code = 404 then Except.ok (("[]"), assocSet users_orgs login ("[]"))
        else Except.error e
      | _ => Except.error e

/-- Python `int(s)` on the page-number fragment: digits (with optional
sign) or `ValueError`. -/
def parse_int_py (s : String) : Except PyErr Int :=
  match s.data with
  | [] => Except.error PyErr.valueError
  | c :: rest =>
    if c == '-' then
      if !rest.isEmpty && rest.all Char.isDigit then
        Except.ok (-(Int.ofNat (digitsVal rest)))
      else Except.error PyErr.valueError
    else
      if (c :: rest).all Char.isDigit then Except.ok (Int.ofNat (digitsVal (c :: rest)))
      else Except.error PyErr.valueError

/-- When `sep` is a prefix of `cs`, return the remaining characters. -/
def stripPre : List Char → List Char → Option (List Char)
  | [], cs => some cs
  | _, [] => none
  | s :: ss, c :: cs => if c == s then stripPre ss cs else none

/-- Fuelled splitter over characters; every step consumes at least one
character when the separator is nonempty, so `cs.length + 1` fuel suffices. -/
def splitOnCharsF : Nat → List Char → List Char → List Char → List String
  | 0, _, cs, acc => [String.mk (acc.reverse ++ cs)]
  | Nat.succ fuel, sep, cs, acc =>
    match cs with
    | [] => [String.mk acc.reverse]
    | c :: rest =>
      match stripPre sep cs with
      | some after => String.mk acc.reverse :: splitOnCharsF fuel sep after []
      | none => splitOnCharsF fuel sep rest (c :: acc)

/-- Python `s.split(sep)` for a nonempty explicit separator. -/
def py_splitOn (s sep : String) : List String :=
  if sep.isEmpty then [s]
  else splitOnCharsF (s.length + 1) sep.data s.data []

/-- `last_url.split('&page=')[1].split('&')[0]` followed by `int(...)`
(github.py lines 629-631): `IndexError` when the url has no `&page=`
argument, `ValueError` when the fragment is not a number. -/
def parse_last_page (last_url : String) : Except PyErr Int :=
  match py_splitOn last_url ("&page=") with
  | _ :: second :: _ =>
    match py_splitOn second ("&") with
    | pageStr :: _ => parse_int_py pageStr
    | [] => Except.error PyErr.indexError
  | _ => Except.error PyErr.indexError

/-- The eager formatting `"Page: %i/%i" % (page, last_page)` on github.py
line 645: `%i` applied to `None` raises `TypeError`. -/
def fmt_page_counter (last_page : Option Int) : Except PyErr Unit :=
  match last_page with
  | some _ => Except.ok ()
  | none => Except.error PyErr.typeError

/-- Result of consuming the `fetch_items` generator: the page bodies it
yielded, and the error that terminated it, if any. -/
structure PagOut where
  items : List String
  err : Option PyErr

/-- The `while items:` loop of `GitHubClient.fetch_items` (github.py lines
634-645): yield the page, follow the `next` link if present, then format
the page-counter debug line (which raises `TypeError` when `last_page` is
`None`). The loop ends when no `next` link exists or the new body is empty
(falsy). -/
def fetch_items_go : Nat → RLState → (String → Resp) → Int → Resp → String →
    Option Int → List String → PagOut
  | 0, _, _, _, _, _, _, acc => ⟨acc.reverse, some PyErr.fuelExhausted⟩
  | Nat.succ fuel, st, net, now, resp, items, last_page, acc =>
    if items == "" then ⟨acc.reverse, none⟩
    else
      match resp.nextUrl with
      | none => ⟨(items :: acc).reverse, none⟩
      | some nu =>
        match gh_fetch st net now nu with
        | Except.error e => ⟨(items :: acc).reverse, some e⟩
        | Except.ok (r2, st2) =>
          match fmt_page_counter last_page with
          | Except.error e => ⟨(items :: acc).reverse, some e⟩
          | Except.ok _ => fetch_items_go fuel st2 net now r2 r2.text last_page (items :: acc)

/-- `GitHubClient.fetch_items` (github.py lines 614-645): fetch the first
page eagerly, parse the last-page number from the `last` link when that
link is present, then stream pages following `next` links. -/
def fetch_items (fuel : Nat) (st : RLState) (net : String → Resp) (now : Int)
    (url0 : String) : PagOut :=
  match gh_fetch st net now url0 with
  | Except.error e => ⟨[], some e⟩
  | Except.ok (r, st1) =>
    match r.lastUrl with
    | some lu =>
      match parse_last_page lu with
      | Except.error e => ⟨[], some e⟩
      | Except.ok lp => fetch_items_go fuel st1 net now r r.text (some lp) []
    | none => fetch_items_go fuel st1 net now r r.text none []

def ISSUES_MARK : String := "{ISSUES}"

def ISSUE_END_MARK : String := "{ISSUE-END}"

def USER_MARK : String := "{USER}"

def ASSIGNEE_MARK : String := "{ASSIGNEE}"

def ASSIGNEES_MARK : String := "{ASSIGNEES}"

def COMMENTS_MARK : String := "{COMMENTS}"

def ISSUE_REACTIONS_MARK : String := "{ISSUE-REACTIONS}"

def COMMENT_REACTIONS_MARK : String := "{COMMENT-REACTIONS}"

def LOG_END_MARK : String := "{}{}"

def EMPTY_ARR_STR : String := "[]"

/-- `GitHub.__get_login` (github.py lines 313-319): falsy users give `None`;
otherwise `user['login']` — a `TypeError` on a non-dict subscript with a
string key, a `KeyError` when the key is absent. -/
def get_login (user : PyVal) : Except PyErr PyVal :=
  if !(isTruthy user) then Except.ok PyVal.vnull
  else
    match user with
    | PyVal.vdict d =>
      match assocGet d ("login") with
      | some v => Except.ok v
      | none => Except.error PyErr.keyError
    | _ => Except.error PyErr.typeError

/-- Python subscript read `v['key']`: only dicts support string keys. -/
def asSubscriptDict : PyVal → Except PyErr (List (String × PyVal))
  | PyVal.vdict d => Except.ok d
  | _ => Except.error PyErr.typeError

/-- `GitHub.__get_user_and_organization` is unconditionally short-circuited
to `return {}` (github.py lines 436-440); its arguments are still evaluated
by the callers. -/
def get_user_and_organization : PyVal :=
  PyVal.vdict []

/-- `GitHub.__fetch_user_and_organization_from_cache` (lines 352-357):
consume the raw user and raw org tokens, return the (short-circuited) user. -/
def fetch_user_and_org_from_cache (toks : List PyVal) :
    Except PyErr (PyVal × List PyVal) := do
  let (_raw_user, toks) ← nextTok toks
  let (_raw_org, toks) ← nextTok toks
  Except.ok (get_user_and_organization, toks)

/-- `GitHub.__fetch_assignee_from_cache` (lines 359-368): consume four
tokens, evaluate `__get_login(raw_assignee)`, return the short-circuited user. -/
def fetch_assignee_from_cache (toks : List PyVal) :
    Except PyErr (PyVal × List PyVal) := do
  let (raw_assignee, toks) ← nextTok toks
  let (_user_tag, toks) ← nextTok toks
  let (_raw_user, toks) ← nextTok toks
  let (_raw_org, toks) ← nextTok toks
  let _ ← get_login raw_assignee
  Except.ok (get_user_and_organization, toks)

/-- One iteration of the `for a in raw_assignees` loop in
`GitHub.__fetch_assignees_from_cache` (lines 375-380): three `next` calls,
then `__get_login(a)` is evaluated for the `__get_user_and_organization` call. -/
def assignee_step (a : PyVal) (toks : List PyVal) : Except PyErr (PyVal × List PyVal) := do
  let (_user_tag, toks) ← nextTok toks
  let (_raw_user, toks) ← nextTok toks
  let (_raw_org, toks) ← nextTok toks
  let _ ← get_login a
  Except.ok (get_user_and_organization, toks)

def assigneesGo : List PyVal → List PyVal → List PyVal →
    Except PyErr (PyVal × List PyVal)
  | [], toks, acc => Except.ok (PyVal.vlist acc.reverse, toks)
  | a :: rest, toks, acc => do
    let (a2, toks2) ← assignee_step a toks
    assigneesGo rest toks2 (a2 :: acc)

/-- `GitHub.__fetch_assignees_from_cache` (lines 370-382): NOTE — the raw
payload token is iterated directly (`for a in raw_assignees`), with no
`json.loads`; a string payload is therefore iterated character by character. -/
def fetch_assignees_from_cache (toks : List PyVal) :
    Except PyErr (PyVal × List PyVal) := do
  let (raw_assignees, toks) ← nextTok toks
  let elems ← pyIterate raw_assignees
  assigneesGo elems toks []

/-- One iteration of the reaction loops in
`__fetch_issue_comment_reactions_from_cache` / `__fetch_issue_reactions_from_cache`
(lines 389-393 and 402-406): three `next` calls, then
`reaction['user']` is read, `__get_login` applied, and
`reaction['user_data']` set to the short-circuited user. -/
def reaction_step (r : PyVal) (toks : List PyVal) : Except PyErr (PyVal × List PyVal) := do
  let (_user_tag, toks) ← nextTok toks
  let (_raw_user, toks) ← nextTok toks
  let (_raw_org, toks) ← nextTok toks
  let d ← asSubscriptDict r
  let u ← (match assocGet d ("user") with
           | some v => Except.ok v
           | none => Except.error PyErr.keyError)
  let _ ← get_login u
  Except.ok (PyVal.vdict (dictSet d ("user_data") get_user_and_organization), toks)

def reactionsGo : List PyVal → List PyVal → List PyVal →
    Except PyErr (List PyVal × List PyVal)
  | [], toks, acc => Except.ok (acc.reverse, toks)
  | r :: rest, toks, acc => do
    let (r2, toks2) ← reaction_step r toks
    reactionsGo rest toks2 (r2 :: acc)

/-- Shared body of `__fetch_issue_comment_reactions_from_cache` (lines
384-395) and `__fetch_issue_reactions_from_cache` (lines 397-408), which
are textually identical: `json.loads` the payload token, decorate each
reaction in place, return the (mutated) parsed value. A non-list parse
result is iterated as Python would iterate it; its elements are never
dicts, so the first step always raises. -/
def fetch_reactions_list_from_cache (toks0 : List PyVal) :
    Except PyErr (PyVal × List PyVal) := do
  let (raw_content, toks) ← nextTok toks0
  let reactions ← json_loads_py raw_content
  match reactions with
  | PyVal.vlist xs => do
    let (xs2, toks2) ← reactionsGo xs toks []
    Except.ok (PyVal.vlist xs2, toks2)
  | other => do
    let elems ← pyIterate other
    match elems with
    | [] => Except.ok (other, toks)
    | e :: _ => do
      let _ ← reaction_step e toks
      Except.error PyErr.typeError

def fetch_issue_comment_reactions_from_cache (toks : List PyVal) :
    Except PyErr (PyVal × List PyVal) :=
  fetch_reactions_list_from_cache toks

def fetch_issue_reactions_from_cache (toks : List PyVal) :
    Except PyErr (PyVal × List PyVal) :=
  fetch_reactions_list_from_cache toks

/-- One iteration of the `for c in comments` loop in
`GitHub.__fetch_comments_from_cache` (lines 415-423): three `next` calls,
user decoration, then the comment-reactions tag and block are consumed and
attached as `reactions_data`. -/
def comment_step (c : PyVal) (toks : List PyVal) : Except PyErr (PyVal × List PyVal) := do
  let (_user_tag, toks) ← nextTok toks
  let (_raw_user, toks) ← nextTok toks
  let (_raw_org, toks) ← nextTok toks
  let d ← asSubscriptDict c
  let u ← (match assocGet d ("user") with
           | some v => Except.ok v
           | none => Except.error PyErr.keyError)
  let _ ← get_login u
  let d := dictSet d ("user_data") get_user_and_organization
  let (_reactions_tag, toks) ← nextTok toks
  let (rs, toks) ← fetch_issue_comment_reactions_from_cache toks
  Except.ok (PyVal.vdict (dictSet d ("reactions_data") rs), toks)

def commentsGo : List PyVal → List PyVal → List PyVal →
    Except PyErr (List PyVal × List PyVal)
  | [], toks, acc => Except.ok (acc.reverse, toks)
  | c :: rest, toks, acc => do
    let (c2, toks2) ← comment_step c toks
    commentsGo rest toks2 (c2 :: acc)

/-- `GitHub.__fetch_comments_from_cache` (lines 410-425): `json.loads` the
payload token, decorate each comment with user and reactions data, return
the (mutated) parsed value. -/
def fetch_comments_from_cache (toks0 : List PyVal) :
    Except PyErr (PyVal × List PyVal) := do
  let (raw_content, toks) ← nextTok toks0
  let comments ← json_loads_py raw_content
  match comments with
  | PyVal.vlist xs => do
    let (xs2, toks2) ← commentsGo xs toks []
    Except.ok (PyVal.vlist xs2, toks2)
  | other => do
    let elems ← pyIterate other
    match elems with
    | [] => Except.ok (other, toks)
    | e :: _ => do
      let _ ← comment_step e toks
      Except.error PyErr.typeError

/-- `GitHub.__init_extra_issue_fields` (lines 427-434). -/
def init_extra_issue_fields (d : List (String × PyVal)) : List (String × PyVal) :=
  dictSet (dictSet (dictSet (dictSet (dictSet d ("user_data") (PyVal.vdict []))
    ("assignee_data") (PyVal.vdict [])) ("assignees_data") (PyVal.vlist []))
    ("comments_data") (PyVal.vlist [])) ("reactions_data") (PyVal.vlist [])

/-- The marker dispatch inside the inner `while` of `GitHub.fetch_from_cache`
(lines 196-210): recognised markers consume their block and set the
corresponding field; any other token falls through the `elif` chain with no
effect and no error. -/
def dispatchBranch (issue : List (String × PyVal)) (raw_item : PyVal)
    (toks : List PyVal) : Except PyErr (List (String × PyVal) × List PyVal) :=
  if isMark raw_item USER_MARK then do
    let u ← (match assocGet issue ("user") with
             | some v => Except.ok v
             | none => Except.error PyErr.keyError)
    let _ ← get_login u
    let (ud, toks2) ← fetch_user_and_org_from_cache toks
    Except.ok (dictSet issue ("user_data") ud, toks2)
  else if isMark raw_item ASSIGNEE_MARK then do
    let (a, toks2) ← fetch_assignee_from_cache toks
    Except.ok (dictSet issue ("assignee_data") a, toks2)
  else if isMark raw_item ASSIGNEES_MARK then do
    let (as2, toks2) ← fetch_assignees_from_cache toks
    Except.ok (dictSet issue ("assignees_data") as2, toks2)
  else if isMark raw_item COMMENTS_MARK then do
    let (cs2, toks2) ← fetch_comments_from_cache toks
    Except.ok (dictSet issue ("comments_data") cs2, toks2)
  else if isMark raw_item ISSUE_REACTIONS_MARK then do
    let (rs2, toks2) ← fetch_issue_reactions_from_cache toks
    Except.ok (dictSet issue ("reactions_data") rs2, toks2)
  else Except.ok (issue, toks)

/-- An exception escaping a generator body: PEP 479 turns `StopIteration`
into `RuntimeError`; every other exception propagates unchanged. -/
def escErr (e : PyErr) : PyErr :=
  if e = PyErr.stopIteration then PyErr.runtimeError else e

/-- The inner `while raw_item != '{ISSUE-END}'` loop of
`GitHub.fetch_from_cache` (lines 194-217). The `try`/`except StopIteration`
covers the dispatch and the trailing `next`, so an exhausted log `break`s
out of the loop; every other exception escapes. -/
def innerLoop : Nat → List (String × PyVal) → PyVal → List PyVal →
    Except PyErr (List (String × PyVal) × List PyVal)
  | 0, _, _, _ => Except.error PyErr.fuelExhausted
  | Nat.succ fuel, issue, raw_item, toks =>
    if isMark raw_item ISSUE_END_MARK then Except.ok (issue, toks)
    else
      match dispatchBranch issue raw_item toks with
      | Except.error PyErr.stopIteration => Except.ok (issue, [])
      | Except.error e => Except.error e
      | Except.ok (issue2, toks2) =>
        match nextTok toks2 with
        | Except.error _ => Except.ok (issue2, [])
        | Except.ok (raw2, toks3) => innerLoop fuel issue2 raw2 toks3

/-- Result of consuming the `fetch_from_cache` generator: the issues it
yielded and the error that terminated it, if any. -/
structure ReplayOut where
  items : List PyVal
  err : Option PyErr

/-- The `for issue in issues` loop of `GitHub.fetch_from_cache` (lines
190-220): per issue, initialise the extra fields, read a token (line 192,
outside the `try`: `StopIteration` escapes the generator), run the inner
loop, read the post-issue token (line 219, also outside the `try`), then
yield the issue. The value threaded through is the token last assigned to
`raw_item`, which the outer `while` inspects after the loop. -/
def forIssues : Nat → List PyVal → PyVal → List PyVal → List PyVal →
    Except ReplayOut (PyVal × List PyVal × List PyVal)
  | _, [], raw_item, toks, acc => Except.ok (raw_item, toks, acc)
  | fuel, issuev :: rest, _raw_item, toks, acc =>
    match issuev with
    | PyVal.vdict d =>
      let issue := init_extra_issue_fields d
      match nextTok toks with
      | Except.error _ => Except.error ⟨acc.reverse, some PyErr.runtimeError⟩
      | Except.ok (raw2, toks2) =>
        match innerLoop fuel issue raw2 toks2 with
        | Except.error e => Except.error ⟨acc.reverse, some (escErr e)⟩
        | Except.ok (issue2, toks3) =>
          match nextTok toks3 with
          | Except.error _ => Except.error ⟨acc.reverse, some PyErr.runtimeError⟩
          | Except.ok (rawNext, toks4) =>
            forIssues fuel rest rawNext toks4 (PyVal.vdict issue2 :: acc)
    | _ => Except.error ⟨acc.reverse, some PyErr.typeError⟩

/-- The outer `while raw_item != '{}{}'` loop of `GitHub.fetch_from_cache`
(lines 185-220). Only an `'{ISSUES}'` token reassigns the local `issues`
(via `__fetch_issues_from_cache`, whose `next` is outside any `try`); when
`issues` was never assigned the `for` raises `NameError`
(`UnboundLocalError`). -/
def outerLoop : Nat → PyVal → Option PyVal → List PyVal → List PyVal → ReplayOut
  | 0, _, _, _, acc => ⟨acc.reverse, some PyErr.fuelExhausted⟩
  | Nat.succ fuel, raw_item, issuesVar, toks, acc =>
    if isMark raw_item LOG_END_MARK then ⟨acc.reverse, none⟩
    else
      match (if isMark raw_item ISSUES_MARK then
               match nextTok toks with
               | Except.error e => Except.error (escErr e)
               | Except.ok (raw_content, toks2) =>
                 match json_loads_py raw_content with
                 | Except.error e => Except.error (escErr e)
                 | Except.ok v => Except.ok (some v, toks2)
             else Except.ok (issuesVar, toks)) with
      | Except.error e => ⟨acc.reverse, some e⟩
      | Except.ok (issuesVar2, toks2) =>
        match issuesVar2 with
        | none => ⟨acc.reverse, some PyErr.nameError⟩
        | some issuesv =>
          match pyIterate issuesv with
          | Except.error e => ⟨acc.reverse, some (escErr e)⟩
          | Except.ok issueList =>
            match forIssues fuel issueList raw_item toks2 acc with
            | Except.error out => out
            | Except.ok (rawLast, toks3, acc3) =>
              outerLoop fuel rawLast (some issuesv) toks3 acc3

/-- `GitHub.fetch_from_cache` (github.py lines 168-220), run to completion
on a given cache log (the cache object is assumed present — the missing
cache `CacheError` branch is not modelled). The initial `next` on line 183
is outside any `try`, so an empty log kills the generator. -/
def replay (toks : List PyVal) : ReplayOut :=
  match nextTok toks with
  | Except.error _ => ⟨[], some PyErr.runtimeError⟩
  | Except.ok (raw0, toks1) => outerLoop (toks.length * 2 + 4) raw0 none toks1 []

/-- The per-label sweep loop of `GitHubClient.issues` (github.py lines
558-565): `result = []`, then `result += self.fetch_items(path, payload)`
for each label, concatenating the page bodies of one full paginated sweep
per label. -/
def labelSweeps : List String → (String → List String) → List String
  | [], _ => []
  | l :: ls, f => f l ++ labelSweeps ls f

/-- `GitHubClient.issues` (github.py lines 544-565) with the paginated
sweep for one label abstracted as `fetchPages`. `self.labels` defaults to
`None`; `for label in self.labels:` over `None` raises `TypeError` before
any request is made. -/
def client_issues (labels : Option (List String)) (fetchPages : String → List String) :
    Except PyErr (List String) :=
  match labels with
  | none => Except.error PyErr.typeError
  | some ls => Except.ok (labelSweeps ls fetchPages)

/-- The default of the `labels` parameter of `GitHub.__init__`
(github.py line 85), passed through to `GitHubClient.labels`. -/
def GitHub_default_labels : Option (List String) := none

/-- Result of consuming the `GitHub.fetch` generator: the issues it
yielded, the tokens it pushed to the cache queue, and the error that
terminated it, if any. -/
structure FetchOut where
  items : List PyVal
  cacheLog : List PyVal
  err : Option PyErr

/-- The page loop of `GitHub.fetch` (github.py lines 163-166): for each raw
page, `json.loads` it and yield each issue. The method body contains no
`_push_cache_queue` call, so the cache log component is always empty. -/
def fetch_materialize : List String → List PyVal → FetchOut
  | [], acc => ⟨acc.reverse, [], none⟩
  | raw :: rest, acc =>
    match json_loads_py (PyVal.vstr raw) with
    | Except.error e => ⟨acc.reverse, [], some e⟩
    | Except.ok issuesv =>
      match pyIterate issuesv with
      | Except.error e => ⟨acc.reverse, [], some e⟩
      | Except.ok elems => fetch_materialize rest (elems.reverse ++ acc)

/-- `GitHub.fetch` (github.py lines 147-166): obtain the page groups from
`client.issues` and yield each parsed issue unchanged. No sub-resource
resolution is performed and nothing is pushed to the cache queue. -/
def github_fetch (labels : Option (List String)) (fetchPages : String → List String) :
    FetchOut :=
  match client_issues labels fetchPages with
  | Except.error e => ⟨[], [], some e⟩
  | Except.ok groups => fetch_materialize groups []

/-- The user decoration inside `GitHub.__get_issue_reactions` (lines
240-242): `reaction['user']` is read, `__get_login` applied, and
`reaction['user_data']` set to the short-circuited `__get_user` result. -/
def reaction_user_decorate (r : PyVal) : Except PyErr PyVal := do
  let d ← asSubscriptDict r
  let u ← (match assocGet d ("user") with
           | some v => Except.ok v
           | none => Except.error PyErr.keyError)
  let _ ← get_login u
  Except.ok (PyVal.vdict (dictSet d ("user_data") get_user_and_organization))

def reactions_page_decorate : List PyVal → List PyVal → Except PyErr (List PyVal)
  | [], acc => Except.ok acc.reverse
  | r :: rest, acc => do
    let r2 ← reaction_user_decorate r
    reactions_page_decorate rest (r2 :: acc)

def get_issue_reactions_pages : List String → List PyVal → List PyVal →
    Except PyErr (List PyVal × List PyVal)
  | [], reactions, pushes => Except.ok (reactions.reverse, pushes.reverse)
  | raw :: rest, reactions, pushes => do
    let v ← json_loads_py (PyVal.vstr raw)
    let elems ← pyIterate v
    let rs ← reactions_page_decorate elems []
    get_issue_reactions_pages rest (rs.reverse ++ reactions) (PyVal.vstr raw :: pushes)

/-- `GitHub.__get_issue_reactions` (github.py lines 222-244): pushes
`'{ISSUE-REACTIONS}'`, then either the literal `'[]'` payload (when the
reported total count is zero) or one raw payload per fetched page, while
building the decorated reactions list. The result pairs the reactions with
the pushed cache tokens. This helper is defined in the source but is never
called from `GitHub.fetch`. -/
def get_issue_reactions (total_count : Int) (pages : List String) :
    Except PyErr (List PyVal × List PyVal) :=
  if total_count = 0 then
    Except.ok ([], [PyVal.vstr ISSUE_REACTIONS_MARK, PyVal.vstr EMPTY_ARR_STR])
  else
    match get_issue_reactions_pages pages [] [] with
    | Except.ok (rs, pushes) => Except.ok (rs, PyVal.vstr ISSUE_REACTIONS_MARK :: pushes)
    | Except.error e => Except.error e

/-- Field read on an issue record, `none` when the field is absent. -/
def issueField (v : PyVal) (k : String) : Option PyVal :=
  match v with
  | PyVal.vdict d => assocGet d k
  | _ => none

/-- A one-issue page body, `[{"id": 1}]`. -/
def one_issue_page : String := "[\x7b\"id\": 1\x7d]"

/-- The issue of `one_issue_page` after `__init_extra_issue_fields`, with
all sub-resource fields empty. -/
def issue1_all_empty : PyVal :=
  PyVal.vdict [(("id"), PyVal.vint 1), (("user_data"), PyVal.vdict []),
    (("assignee_data"), PyVal.vdict []), (("assignees_data"), PyVal.vlist []),
    (("comments_data"), PyVal.vlist []), (("reactions_data"), PyVal.vlist [])]

/-- The token sequence of claim C3 exactly as stated: every payload,
including the assignees block's, is the JSON text (a string token). -/
def c3_tokens_str : List PyVal :=
  [PyVal.vstr ISSUES_MARK, PyVal.vstr one_issue_page, PyVal.vstr ASSIGNEES_MARK,
   PyVal.vstr EMPTY_ARR_STR, PyVal.vstr COMMENTS_MARK, PyVal.vstr EMPTY_ARR_STR,
   PyVal.vstr ISSUE_REACTIONS_MARK, PyVal.vstr EMPTY_ARR_STR,
   PyVal.vstr ISSUE_END_MARK, PyVal.vstr LOG_END_MARK]

/-- The token sequence of claim C3 with the assignees payload being the
decoded empty array — the shape the write side actually pushes
(`__get_issue_assignees` pushes the raw list object, not JSON text). -/
def c3_tokens_arr : List PyVal :=
  [PyVal.vstr ISSUES_MARK, PyVal.vstr one_issue_page, PyVal.vstr ASSIGNEES_MARK,
   PyVal.vlist [], PyVal.vstr COMMENTS_MARK, PyVal.vstr EMPTY_ARR_STR,
   PyVal.vstr ISSUE_REACTIONS_MARK, PyVal.vstr EMPTY_ARR_STR,
   PyVal.vstr ISSUE_END_MARK, PyVal.vstr LOG_END_MARK]

/-- A token sequence violating the cache grammar: an unknown marker
`'{BOGUS}'` appears inside the issue block. -/
def c4_tokens : List PyVal :=
  [PyVal.vstr ISSUES_MARK, PyVal.vstr one_issue_page, PyVal.vstr ("{BOGUS}"),
   PyVal.vstr ISSUE_END_MARK, PyVal.vstr LOG_END_MARK]

/-- A fetch session consisting of one label sweep returning one page with
one issue. -/
def c1_out : FetchOut := github_fetch (some [("bugs")]) (fun _ => [one_issue_page])

/-- A one-issue page whose issue carries an (empty) `assignees` list. -/
def c2_page : String := "[\x7b\"id\": 1, \"assignees\": []\x7d]"

/-- The fetch session over `c2_page`. -/
def c2_out : FetchOut := github_fetch (some [("l1")]) (fun _ => [c2_page])

/-- A rate state fresh out of `setup_rate_limit_handler`: both rate fields
unknown, so `sleep_for_rate_limit` returns immediately. -/
def rl_quiet : RLState := setup_rate_limit_handler false 10

/-- A two-page chain: page 1 has a `next` link but no `last` link; page 2
has neither. -/
def c7_net2 : String → Resp := fun u =>
  if u == ("u2") then ⟨200, ("p2"), none, none, none, none⟩
  else ⟨200, ("p1"), some ("u2"), none, none, none⟩

/-- A single page with neither `next` nor `last` link. -/
def c7_net1 : String → Resp := fun _ => ⟨200, ("p1"), none, none, none, none⟩

/-- A three-page chain: page 1 has `next` and `last` (page number 3),
page 2 has `next`, page 3 has neither. -/
def c7_net3 : String → Resp := fun u =>
  if u == ("q2") then ⟨200, ("b2"), some ("q3"), none, none, none⟩
  else if u == ("q3") then ⟨200, ("b3"), none, none, none, none⟩
  else ⟨200, ("b1"), some ("q2"), some ("q1&page=3"), none, none⟩

/-- A network where the organizations lookup for `alice` and the primary
issues endpoint answer 404, and everything else answers 500. -/
def c8_net : String → Resp := fun u =>
  if u == orgsUrl ("alice") then ⟨404, ("e1"), none, none, none, none⟩
  else if u == issuesUrl ("o") ("r") then ⟨404, ("e3"), none, none, none, none⟩
  else ⟨500, ("e2"), none, none, none, none⟩

/-- Claim C1 (code bug): the round-trip law fails. `GitHub.fetch` pushes no
tokens to the cache queue, so the cache log of a fetch session is empty;
replaying that log dies immediately (the first `next` raises) and yields no
issue, while materializing the same session yields the issue. -/
theorem c1_roundtrip_fails :
    c1_out.cacheLog = [] ∧
    c1_out.items = [PyVal.vdict [(("id"), PyVal.vint 1)]] ∧
    replay c1_out.cacheLog = ⟨[], some PyErr.runtimeError⟩ ∧
    (replay c1_out.cacheLog).items.length ≠ c1_out.items.length :=
  ⟨rfl, rfl, rfl, by decide⟩

/-- Claim C2 (code bug): `GitHub.fetch` performs no per-issue sub-resource
resolution: the yielded issue carries only its raw fields (no `user_data`,
`assignee_data`, `assignees_data`, `comments_data` or `reactions_data`) and
the cache log stays empty, while the cache-writing helper
`__get_issue_reactions` — which does push the documented tokens — exists
but is never invoked by `fetch`. -/
theorem c2_fetch_resolves_nothing :
    c2_out.items = [PyVal.vdict [(("id"), PyVal.vint 1), (("assignees"), PyVal.vlist [])]] ∧
    issueField (PyVal.vdict [(("id"), PyVal.vint 1), (("assignees"), PyVal.vlist [])])
      ("assignees_data") = none ∧
    c2_out.cacheLog = [] ∧
    get_issue_reactions 0 [] =
      Except.ok ([], [PyVal.vstr ISSUE_REACTIONS_MARK, PyVal.vstr EMPTY_ARR_STR]) :=
  ⟨rfl, rfl, rfl, rfl⟩

/-- Claim C3, counterexample: replaying the token sequence exactly as the
claim states it — with the assignees payload being the two-character JSON
text `"[]"` — does not reconstruct any issue: the replay loop iterates the
string character by character and `__get_login('[')` raises `TypeError`,
killing the generator before anything is yielded. -/
theorem c3_string_payload_counterexample :
    replay c3_tokens_str = ⟨[], some PyErr.typeError⟩ := rfl

/-- Claim C3, amended: with the assignees payload being the decoded empty
array (the value the write side actually pushes), replay reconstructs
exactly one issue whose `assignees_data`, `comments_data` and
`reactions_data` fields are all empty. -/
theorem c3_array_payload_reconstructs :
    replay c3_tokens_arr = ⟨[issue1_all_empty], none⟩ ∧
    issueField issue1_all_empty ("assignees_data") = some (PyVal.vlist []) ∧
    issueField issue1_all_empty ("comments_data") = some (PyVal.vlist []) ∧
    issueField issue1_all_empty ("reactions_data") = some (PyVal.vlist []) :=
  ⟨rfl, rfl, rfl, rfl⟩

/-- Claim C4, counterexample: a token sequence containing the marker
`'{BOGUS}'`, which belongs to no grammar, replays without any error and
silently yields a record — refuting the claim that every grammar violation
fails with a fatal `CacheCorrupted` error. -/
theorem c4_bogus_token_silently_accepted :
    replay c4_tokens = ⟨[issue1_all_empty], none⟩ := rfl

/-- Claim C4, amended: replay performs no grammar validation and no
`CacheCorrupted` error exists in the code. Unrecognized tokens inside an
issue fall through the marker dispatch and the record is still yielded;
other orderings surface as unrelated Python errors instead — a leading
non-issues token hits the unbound local `issues` (`NameError`), and an
empty log kills the generator (`RuntimeError` via PEP 479). -/
theorem c4_no_grammar_validation :
    replay c4_tokens = ⟨[issue1_all_empty], none⟩ ∧
    replay [PyVal.vstr ASSIGNEES_MARK] = ⟨[], some PyErr.nameError⟩ ∧
    replay [] = ⟨[], some PyErr.runtimeError⟩ :=
  ⟨rfl, rfl, rfl⟩

/-- Claim C5, counterexample: with the remaining rate known (5) and at most
the floor (10) and the sleep flag disabled — exactly the claim's exhaustion
condition — but the reset timestamp unknown, `sleep_for_rate_limit` raises
`TypeError` (from `None - int`), not `RateLimitError`; the claimed
"if and only if" fails. -/
theorem c5_reset_unknown_counterexample :
    sleep_for_rate_limit ⟨some 5, none, false, 10⟩ 100 = RLOutcome.typeErr := rfl

/-- Claim C5, amended: `sleep_for_rate_limit` raises `RateLimitError`
carrying `reset_at - now + 1` iff the remaining rate is known, at most the
floor, the sleep flag is disabled AND the reset timestamp is known; under
exhaustion with the reset timestamp unknown it raises `TypeError`; with the
flag enabled and the reset known it sleeps `reset_at - now + 1` seconds and
returns normally provided that amount is non-negative (`ValueError`
otherwise); when the remaining rate is unknown or above the floor it
returns immediately. -/
theorem c5_sleep_for_rate_limit_spec (st : RLState) (now : Int) :
    (st.rate_limit = none → sleep_for_rate_limit st now = RLOutcome.ok 0) ∧
    (∀ r, st.rate_limit = some r → st.min_rate_to_sleep < r →
      sleep_for_rate_limit st now = RLOutcome.ok 0) ∧
    (∀ r, st.rate_limit = some r → r ≤ st.min_rate_to_sleep →
      st.rate_limit_reset_ts = none →
      sleep_for_rate_limit st now = RLOutcome.typeErr) ∧
    (∀ r t, st.rate_limit = some r → r ≤ st.min_rate_to_sleep →
      st.rate_limit_reset_ts = some t → st.sleep_for_rate = false →
      sleep_for_rate_limit st now = RLOutcome.rateLimited (t - now + 1)) ∧
    (∀ r t, st.rate_limit = some r → r ≤ st.min_rate_to_sleep →
      st.rate_limit_reset_ts = some t → st.sleep_for_rate = true → 0 ≤ t - now + 1 →
      sleep_for_rate_limit st now = RLOutcome.ok (t - now + 1)) ∧
    (∀ r t, st.rate_limit = some r → r ≤ st.min_rate_to_sleep →
      st.rate_limit_reset_ts = some t → st.sleep_for_rate = true → t - now + 1 < 0 →
      sleep_for_rate_limit st now = RLOutcome.valueErr) := by
  refine ⟨?_, ?_, ?_, ?_, ?_, ?_⟩
  · intro h
    simp [sleep_for_rate_limit, h]
  · intro r h hlt
    simp [sleep_for_rate_limit, h, not_le.mpr hlt]
  · intro r h hle hres
    simp [sleep_for_rate_limit, h, hle, hres]
  · intro r t h hle hres hflag
    simp [sleep_for_rate_limit, h, hle, hres, hflag]
  · intro r t h hle hres hflag hge
    simp [sleep_for_rate_limit, h, hle, hres, hflag, not_lt.mpr hge]
  · intro r t h hle hres hflag hlt
    simp [sleep_for_rate_limit, h, hle, hres, hflag, hlt]

/-- Witness for `c5_sleep_for_rate_limit_spec` at remaining 5, floor 10,
flag disabled, reset at 102, now 100: the raised error carries 3. -/
theorem c5_sleep_for_rate_limit_spec_witness :
    sleep_for_rate_limit ⟨some 5, some 102, false, 10⟩ 100 = RLOutcome.rateLimited 3 :=
  (c5_sleep_for_rate_limit_spec ⟨some 5, some 102, false, 10⟩ 100).2.2.2.1 5 102
    rfl (by decide) rfl rfl

/-- Claim C6, counterexample: with the reset timestamp 100 seconds in the
past, the value carried by `RateLimitError` is `-99` — negative and not
clamped to 0. -/
theorem c6_negative_seconds_counterexample :
    sleep_for_rate_limit ⟨some 5, some 0, false, 10⟩ 100 = RLOutcome.rateLimited (-99) ∧
    ((-99 : Int) < 0) :=
  ⟨rfl, by decide⟩

/-- Claim C6, amended: `seconds_to_reset` is exactly `reset_at - now + 1`
with no clamping: a negative value is carried by `RateLimitError` as-is
when the sleep flag is disabled, and when the flag is enabled a negative
value makes `time.sleep` raise `ValueError` instead of sleeping. -/
theorem c6_seconds_to_reset_no_clamp (st : RLState) (now r t : Int)
    (h1 : st.rate_limit = some r) (h2 : r ≤ st.min_rate_to_sleep)
    (h3 : st.rate_limit_reset_ts = some t) :
    (st.sleep_for_rate = false →
      sleep_for_rate_limit st now = RLOutcome.rateLimited (t - now + 1)) ∧
    (st.sleep_for_rate = true → t - now + 1 < 0 →
      sleep_for_rate_limit st now = RLOutcome.valueErr) := by
  constructor
  · intro hflag
    simp [sleep_for_rate_limit, h1, h2, h3, hflag]
  · intro hflag hneg
    simp [sleep_for_rate_limit, h1, h2, h3, hflag, hneg]

/-- Witness for `c6_seconds_to_reset_no_clamp`: with the flag enabled and
the reset 100 seconds in the past, the sleep call raises `ValueError`. -/
theorem c6_seconds_to_reset_no_clamp_witness :
    sleep_for_rate_limit ⟨some 5, some 0, true, 10⟩ 100 = RLOutcome.valueErr :=
  (c6_seconds_to_reset_no_clamp ⟨some 5, some 0, true, 10⟩ 100 5 0 rfl (by decide) rfl).2
    rfl (by decide)

/-- Claim C7 (code bug): when the first response has no `last` link but a
`next` link exists, iteration aborts with `TypeError` after yielding only
page 1 — the eager formatting of `"Page: %i/%i" % (page, last_page)` with
`last_page = None` raises. A single page without a `last` link does work,
and a three-page chain whose first response carries `last` yields all three
pages in order. -/
theorem c7_missing_last_link_aborts :
    fetch_items 10 rl_quiet c7_net2 0 ("u1") = ⟨[("p1")], some PyErr.typeError⟩ ∧
    fetch_items 10 rl_quiet c7_net1 0 ("u1") = ⟨[("p1")], none⟩ ∧
    fetch_items 10 rl_quiet c7_net3 0 ("q1") = ⟨[("b1"), ("b2"), ("b3")], none⟩ :=
  ⟨rfl, rfl, rfl⟩

/-- Claim C8: a 404 on the user-organizations lookup is downgraded to the
literal `"[]"` (memoised, no error raised); any other HTTP error status on
that lookup propagates; and a non-2xx status on the primary issues endpoint
propagates as a fetch error. -/
theorem c8_orgs_404_downgraded_primary_fatal (st : RLState) (net : String → Resp)
    (now : Int) (login owner repository : String) (hrl : st.rate_limit = none) :
    ((net (orgsUrl login)).status = 404 →
      user_orgs st [] net now login = Except.ok (("[]"), [(login, ("[]"))])) ∧
    (400 ≤ (net (orgsUrl login)).status → (net (orgsUrl login)).status ≠ 404 →
      user_orgs st [] net now login =
        Except.error (PyErr.httpError (net (orgsUrl login)).status)) ∧
    (400 ≤ (net (issuesUrl owner repository)).status →
      gh_fetch st net now (issuesUrl owner repository) =
        Except.error (PyErr.httpError (net (issuesUrl owner repository)).status)) := by
  refine ⟨?_, ?_, ?_⟩
  · intro h404
    simp [user_orgs, gh_fetch, http_fetch, sleep_for_rate_limit, hrl, assocGet,
      h404, assocSet]
  · intro hge hne
    simp [user_orgs, gh_fetch, http_fetch, sleep_for_rate_limit, hrl, assocGet,
      hge, hne]
  · intro hge
    simp [gh_fetch, http_fetch, sleep_for_rate_limit, hrl, hge]

/-- Witness for `c8_orgs_404_downgraded_primary_fatal` on `c8_net`: 404 on
`alice`'s organizations gives `"[]"`, 500 on `bob`'s propagates, and 404 on
the issues endpoint propagates. -/
theorem c8_orgs_404_downgraded_primary_fatal_witness :
    user_orgs rl_quiet [] c8_net 0 ("alice") =
      Except.ok (("[]"), [(("alice"), ("[]"))]) ∧
    user_orgs rl_quiet [] c8_net 0 ("bob") = Except.error (PyErr.httpError 500) ∧
    gh_fetch rl_quiet c8_net 0 (issuesUrl ("o") ("r")) =
      Except.error (PyErr.httpError 404) := by
  refine ⟨?_, ?_, ?_⟩
  · exact (c8_orgs_404_downgraded_primary_fatal rl_quiet c8_net 0 ("alice") ("o") ("r")
      rfl).1 rfl
  · exact (c8_orgs_404_downgraded_primary_fatal rl_quiet c8_net 0 ("bob") ("o") ("r")
      rfl).2.1 (by decide) (by decide)
  · exact (c8_orgs_404_downgraded_primary_fatal rl_quiet c8_net 0 ("zz") ("o") ("r")
      rfl).2.2 (by decide)

/-- Appending label lists distributes over the per-label sweep loop. -/
theorem labelSweeps_append (l1 l2 : List String) (f : String → List String) :
    labelSweeps (l1 ++ l2) f = labelSweeps l1 f ++ labelSweeps l2 f := by
  induction l1 with
  | nil => simp [labelSweeps]
  | cons h t ih => simp [labelSweeps, ih]

/-- Claim C9: `issues()` performs one full paginated sweep per configured
label and concatenates the results with no de-duplication, so the result
count for a combined label list is the sum of the per-label counts (this
holds for all label lists, in particular for disjointly-matching ones). -/
theorem c9_issues_label_sweeps_additive (l1 l2 : List String) (f : String → List String) :
    client_issues (some (l1 ++ l2)) f =
      Except.ok (labelSweeps l1 f ++ labelSweeps l2 f) ∧
    (labelSweeps (l1 ++ l2) f).length =
      (labelSweeps l1 f).length + (labelSweeps l2 f).length := by
  constructor
  · simp [client_issues, labelSweeps_append]
  · simp [labelSweeps_append]

/-- Claim C10: with the default configuration the label list is `None`, and
every call to `issues()` — hence to the top-level fetch — fails with
`TypeError` while iterating the label list, independent of the network (so
before any issue page is requested) and yielding nothing. -/
theorem c10_none_labels_fails_before_any_request (fetchPages : String → List String) :
    GitHub_default_labels = none ∧
    client_issues GitHub_default_labels fetchPages = Except.error PyErr.typeError ∧
    github_fetch GitHub_default_labels fetchPages = ⟨[], [], some PyErr.typeError⟩ :=
  ⟨rfl, rfl, rfl⟩
